import Mathlib

/-!
Verification of the agent execution controller of this repository:
the loop/termination guard (`src/app/agents/control_layer.py`), the
per-tool call quota (`src/app/agents/adapters/qwen_adapter.py`), the
agent loop's per-tool-call step
(`src/app/agents/services/agent_service.py`), the session registry
(`src/app/agents/services/session_manager.py`) and the workflow state
machine (`src/servers_local/workflow_manager.py`).

Python dicts are embedded as association lists, Python sets of tool
names as lists of strings (only membership matters), timestamps as
integers, and the dynamic result values fed to the success classifier
as an inductive type that records which of the classifier's runtime
type/parse tests the value satisfies.
-/

namespace Agent

/-! ## String helpers (Python `in` substring test) -/

/-- `startsWithChars p l` : `p` is a prefix of the character list `l`. -/
def startsWithChars : List Char → List Char → Bool
  | [], _ => true
  | _ :: _, [] => false
  | p :: ps, c :: cs => p = c && startsWithChars ps cs

/-- `charListContains p l` : `p` occurs as a contiguous run inside `l`. -/
def charListContains (p : List Char) : List Char → Bool
  | [] => p.isEmpty
  | c :: cs => startsWithChars p (c :: cs) || charListContains p cs

/-- Python `pat in s` : substring containment. -/
def strContainsSub (s pat : String) : Bool :=
  charListContains pat.data s.data

/-- Python `s.lower()` : character-wise lowercasing. -/
def strLower (s : String) : String :=
  ⟨s.data.map Char.toLower⟩

/-! ## Tool results

`control_layer.py::ControlLayer._is_successful_result` (lines 129-145)
receives an arbitrary Python value and branches on `isinstance(result,
str)`, `json.loads(result)` yielding a dict, and `isinstance(result,
dict)`.  The embedding records the outcome of those runtime tests in
the value itself: `strRes raw (some fields)` is a string whose
`json.loads` is a dict with (string-valued) entries `fields`;
`strRes raw none` is a string that does not parse to a JSON object
(parse failure, or a parse that is not a dict); `dictRes fields` is a
dict; `otherRes` is any non-str non-dict value. -/

inductive ToolResult where
  | strRes (raw : String) (objFields : Option (List (String × String)))
  | dictRes (fields : List (String × String))
  | otherRes
deriving DecidableEq, Repr

/-! ## control_layer.py -/

/-- `control_layer.py::TerminationReason` (lines 16-23). -/
inductive TerminationReason where
  | terminationActionCalled
  | userConfirmationRequired
  | toolCallLimitReached
  | infiniteLoopDetected
  | taskCompleted
  | errorOccurred
deriving DecidableEq, Repr

/-- `ControlLayerConfig.TERMINATION_ACTIONS` (lines 30-35). -/
def TERMINATION_ACTIONS : List String :=
  ["add_components_from_plan", "execute_circuit_plan", "save_current_design"]

/-- `ControlLayerConfig.CONFIRMATION_REQUIRED_ACTIONS` (lines 38-41). -/
def CONFIRMATION_REQUIRED_ACTIONS : List String :=
  ["plan_circuit"]

/-- `ControlLayerConfig.MAX_TOOL_CALLS_TOTAL` (line 44). -/
def MAX_TOOL_CALLS_TOTAL : Nat := 15

/-- `ControlLayerConfig.MAX_TOOL_CALLS_PER_TOOL` (line 45). -/
def MAX_TOOL_CALLS_PER_TOOL : Nat := 5

/-- `ControlLayerConfig.MAX_SAME_TOOL_CALLS` (line 48). -/
def MAX_SAME_TOOL_CALLS : Nat := 3

/-- `control_layer.py::LoopState` (lines 51-59); `turn_count` is bumped
by `ControlLayer.record_tool_call` (line 150). -/
structure LoopState where
  turnCount : Nat := 0
  toolsCalledInSession : List String := []
  toolCallSignatures : List String := []
  lastToolCallSignature : String := ""
  consecutiveSameToolCalls : Nat := 0
deriving DecidableEq, Repr

/-- Tool arguments: a Python dict of argument name to (already
serialized) JSON value, as fed to `json.dumps(tool_args,
sort_keys=True)`. -/
abbrev ToolArgs := List (String × String)

/-- Insertion step of key-sorting. -/
def insertByKey (kv : String × String) : ToolArgs → ToolArgs
  | [] => [kv]
  | h :: t => if h.1 < kv.1 then h :: insertByKey kv t else kv :: h :: t

/-- Sort the argument dict by key, as `sort_keys=True` does. -/
def sortByKey : ToolArgs → ToolArgs
  | [] => []
  | h :: t => insertByKey h (sortByKey t)

/-- `json.dumps(tool_args, sort_keys=True)` on the argument dict. -/
def dumpsSorted (args : ToolArgs) : String :=
  "\x7b" ++ String.intercalate ", "
    ((sortByKey args).map fun kv => "\"" ++ kv.1 ++ "\": " ++ kv.2) ++ "\x7d"

/-- The call signature `f"{tool_name}:{json.dumps(tool_args, sort_keys=True)}"`
(`LoopState.record_tool_call`, line 63). -/
def mkSignature (toolName : String) (args : ToolArgs) : String :=
  toolName ++ ":" ++ dumpsSorted args

/-- `LoopState.record_tool_call` (lines 61-72). -/
def LoopState.recordToolCall (st : LoopState) (toolName : String) (args : ToolArgs) :
    LoopState :=
  let signature := mkSignature toolName args
  { st with
    consecutiveSameToolCalls :=
      if signature = st.lastToolCallSignature then st.consecutiveSameToolCalls + 1 else 0
    lastToolCallSignature := signature
    toolCallSignatures := st.toolCallSignatures ++ [signature]
    toolsCalledInSession := st.toolsCalledInSession ++ [toolName] }

/-- `ControlLayer.record_tool_call` (lines 147-150): record in the loop
state, then `turn_count += 1`. -/
def recordToolCallCL (st : LoopState) (toolName : String) (args : ToolArgs) :
    LoopState :=
  let st1 := st.recordToolCall toolName args
  { st1 with turnCount := st1.turnCount + 1 }

/-- `ControlLayer._is_successful_result` (lines 129-145). -/
def isSuccessfulResult : ToolResult → Bool
  | .strRes _ (some fields) => List.lookup "status" fields == some "success"
  | .strRes raw none =>
      strContainsSub (strLower raw) "success" || strContainsSub raw "✓" || strContainsSub raw "✅"
  | .dictRes fields => List.lookup "status" fields == some "success"
  | .otherRes => false

/-- Message of check 1 of `should_terminate_after_tool` (lines 101-104). -/
def terminationActionMsg (toolName : String) : String :=
  "✓ Task completed by '" ++ toolName ++ "'. Execution stopped to prevent redundant actions."

/-- Message of check 2 of `should_terminate_after_tool` (lines 108-111). -/
def confirmationMsg (toolName : String) : String :=
  "⏸️ Tool '" ++ toolName ++ "' requires user confirmation. Waiting for user input before proceeding."

/-- Message of check 3 of `should_terminate_after_tool` (lines 115-118). -/
def infiniteLoopMsg (toolName : String) (n : Nat) : String :=
  "⚠️ Detected infinite loop on '" ++ toolName ++ "'. Execution stopped after "
    ++ toString n ++ " identical calls."

/-- Message of check 4 of `should_terminate_after_tool` (lines 122-125). -/
def toolLimitMsg : String :=
  "⚠️ Reached maximum tool calls (" ++ toString MAX_TOOL_CALLS_TOTAL
    ++ "). Please confirm before continuing."

/-- `ControlLayer.should_terminate_after_tool` (lines 82-127).  The
nested `if tool_name in TERMINATION_ACTIONS: if self._is_successful_result(...)`
(which falls through to check 2 when the result is unsuccessful) is
flattened into a single conjunctive condition. -/
def shouldTerminateAfterTool (st : LoopState) (toolName : String) (result : ToolResult) :
    Bool × Option TerminationReason × String :=
  if toolName ∈ TERMINATION_ACTIONS ∧ isSuccessfulResult result then
    (true, some .terminationActionCalled, terminationActionMsg toolName)
  else if toolName ∈ CONFIRMATION_REQUIRED_ACTIONS then
    (true, some .userConfirmationRequired, confirmationMsg toolName)
  else if st.consecutiveSameToolCalls ≥ MAX_SAME_TOOL_CALLS then
    (true, some .infiniteLoopDetected, infiniteLoopMsg toolName st.consecutiveSameToolCalls)
  else if st.toolsCalledInSession.length ≥ MAX_TOOL_CALLS_TOTAL then
    (true, some .toolCallLimitReached, toolLimitMsg)
  else
    (false, none, "")

/-! ## qwen_adapter.py : the per-tool / total call quota

`src/app/agents/adapters/qwen_adapter.py` guards every
`MCPProxyTool.call` with `_check_and_increment_call_count` on the
module-level counter `_tool_call_counter` (lines 13-19).  The Python
dict `per_tool_count` is an association list with `.get(name, 0)`
lookup. -/

/-- Python `d.get(k, 0)` on a `str -> int` dict. -/
def dictGetNat : List (String × Nat) → String → Nat
  | [], _ => 0
  | (k', v) :: rest, k => if k' = k then v else dictGetNat rest k

/-- Python `d[k] = v` on a `str -> int` dict: replace the entry if the
key is present, append it otherwise. -/
def dictSetNat : List (String × Nat) → String → Nat → List (String × Nat)
  | [], k, v => [(k, v)]
  | (k', v') :: rest, k, v =>
      if k' = k then (k, v) :: rest else (k', v') :: dictSetNat rest k v

/-- The `_tool_call_counter` dict of `qwen_adapter.py` (lines 13-19):
`total_count`, `per_tool_count`, `max_total_calls = 15`,
`max_per_tool_calls = 5` (the `last_reset` wall-clock field is not
modelled). -/
structure ToolCallCounter where
  totalCount : Nat := 0
  perToolCount : List (String × Nat) := []
  maxTotalCalls : Nat := 15
  maxPerToolCalls : Nat := 5
deriving DecidableEq, Repr

/-- The denial message of `_check_and_increment_call_count` when a
single tool is saturated (line 39); it names the saturated tool. -/
def perToolLimitMsg (toolName : String) (n : Nat) : String :=
  "⚠️ 工具 '" ++ toolName ++ "' 已调用 " ++ toString n ++ " 次，达到上限。请使用其他工具继续任务。"

/-- The denial message when the session-wide total is saturated (line 45). -/
def totalLimitMsg (n : Nat) : String :=
  "⚠️ 已达到工具调用总上限 (" ++ toString n ++ " 次)。请回复确认后再继续。"

/-- `qwen_adapter.py::_check_and_increment_call_count` (lines 23-53):
returns `(is_allowed, message)` plus the updated counter (the Python
function mutates the module-level counter in place). -/
def checkAndIncrementCallCount (c : ToolCallCounter) (toolName : String) :
    Bool × String × ToolCallCounter :=
  let perTool := dictGetNat c.perToolCount toolName
  if perTool ≥ c.maxPerToolCalls then
    (false, perToolLimitMsg toolName perTool, c)
  else if c.totalCount ≥ c.maxTotalCalls then
    (false, totalLimitMsg c.maxTotalCalls, c)
  else
    (true, "",
      { c with
        totalCount := c.totalCount + 1
        perToolCount := dictSetNat c.perToolCount toolName (perTool + 1) })

/-- `qwen_adapter.py::reset_tool_call_counter` (lines 56-63). -/
def resetToolCallCounter (c : ToolCallCounter) : ToolCallCounter :=
  { c with totalCount := 0, perToolCount := [] }

/-- The JSON body `MCPProxyTool.call` returns when the quota denies the
call (lines 184-189): `json.dumps` of the literal dict, whose insertion
order is preserved. -/
def blockedResultJson (toolName errorMsg : String) : String :=
  "\x7b\"status\": \"blocked\", \"error\": \"" ++ errorMsg
    ++ "\", \"tool_name\": \"" ++ toolName
    ++ "\", \"suggestion\": \"请使用其他工具继续任务，或回复确认后重试。\"\x7d"

/-- `MCPProxyTool.call` (lines 168-247), up to the quota gate: the
counter check runs first, and only when it allows the call does the
body after the gate (parameter parsing, open-design check, MCP
invocation, result wrapping) run — that remainder is abstracted as the
`invokeResult` string.  Returns the result string, the updated counter,
and whether the underlying tool was executed. -/
def proxyToolCall (c : ToolCallCounter) (toolName : String) (invokeResult : String) :
    String × ToolCallCounter × Bool :=
  let (isAllowed, errorMsg, c') := checkAndIncrementCallCount c toolName
  if isAllowed then (invokeResult, c', true)
  else (blockedResultJson toolName errorMsg, c', false)

/-- `k` successive calls of the same tool against the quota counter,
starting from the fresh module-level counter. -/
def quotaTrace (toolName : String) : Nat → ToolCallCounter
  | 0 => {}
  | k + 1 => (checkAndIncrementCallCount (quotaTrace toolName k) toolName).2.2

/-! ## agent_service.py : the per-tool-call step of the agent loop

`AgentService._run_session_agent_loop` (lines 227-289) processes each
requested tool call: record it in the session's control layer, invoke
the tool with any exception converted to
`f"Error executing {tool_name}: {str(e)}"`, append the result to the
message history as a `role="tool"` message, then ask
`should_terminate_after_tool` whether to stop.  (The legacy
`_run_agent_loop`, lines 446-501, has the identical structure.) -/

/-- The tool-result message dict appended to the history (lines 249-256). -/
structure ToolMsg where
  role : String
  toolCallId : String
  name : String
  content : String
deriving DecidableEq, Repr

/-- The error text of the `except` arm around `call_tool` (line 244 /
line 464). -/
def errorExecutingMsg (toolName msg : String) : String :=
  "Error executing " ++ toolName ++ ": " ++ msg

/-- One tool call of the loop body (lines 227-289).  `callOutcome` is
the outcome of `call_tool`: `.ok (raw, fields)` is a returned string
`raw` together with its JSON-object parse (`fields`, or `none` when the
string is not a JSON object), `.error e` is a raised exception with
text `e`.  The synthesized error text starts with `"Error executing "`,
hence never parses as a JSON object.  Returns the extended message
history, the updated control-layer state, and the termination decision
(`should_stop`, reason). -/
def processToolCall (st : LoopState) (messages : List ToolMsg)
    (toolCallId toolName : String) (args : ToolArgs)
    (callOutcome : Except String (String × Option (List (String × String)))) :
    List ToolMsg × LoopState × Bool × Option TerminationReason :=
  let st1 := recordToolCallCL st toolName args
  let contentParsed :=
    match callOutcome with
    | .ok rp => rp
    | .error e => (errorExecutingMsg toolName e, none)
  let messages1 := messages ++ [⟨"tool", toolCallId, toolName, contentParsed.1⟩]
  let decision := shouldTerminateAfterTool st1 toolName (.strRes contentParsed.1 contentParsed.2)
  (messages1, st1, decision.1, decision.2.1)

/-! ## session_manager.py : the session registry

In the code a session's dict key always equals its `session_id` field
(`create_session`, lines 144-152), so the registry is embedded as a
list of session records looked up by that field.  Wall-clock reads
(`time.time()`) become an explicit integer `now` parameter. -/

/-- `session_manager.py::Session` (lines 22-43): the fields the expiry
logic reads; the message list is kept only as its length, the control
layer and metadata are not needed by the claims. -/
structure SessionRec where
  sessionId : String
  createdAt : Int
  lastActivity : Int
  messageCount : Nat := 0
deriving DecidableEq, Repr

/-- `Session.get_idle_seconds` (lines 81-83). -/
def getIdleSeconds (now : Int) (s : SessionRec) : Int :=
  now - s.lastActivity

/-- The summary dict produced by `Session.to_dict` (lines 85-95), in
the fields the claims read. -/
structure SessionSummary where
  sessionId : String
  messageCount : Nat
  ageSeconds : Int
  idleSeconds : Int
deriving DecidableEq, Repr

/-- `Session.to_dict` (lines 85-95). -/
def sessionToDict (now : Int) (s : SessionRec) : SessionSummary :=
  { sessionId := s.sessionId
    messageCount := s.messageCount
    ageSeconds := now - s.createdAt
    idleSeconds := getIdleSeconds now s }

/-- `session_manager.py::SessionManager` state: the `_sessions`
registry and the `_expiration` window (default `30 * 60`, line 106). -/
structure SessionManagerState where
  sessions : List SessionRec := []
  expiration : Int := 30 * 60
deriving DecidableEq, Repr

/-- `self._sessions.get(session_id)`. -/
def lookupSession (sessions : List SessionRec) (sid : String) : Option SessionRec :=
  sessions.find? (fun s => s.sessionId == sid)

/-- `del self._sessions[session_id]`. -/
def removeSession (sessions : List SessionRec) (sid : String) : List SessionRec :=
  sessions.filter (fun s => s.sessionId != sid)

/-- `SessionManager.get_session` (lines 157-179): absent, or expired
(idle strictly above the window: entry deleted, absent returned), or
present.  Returns the result together with the updated registry. -/
def getSession (m : SessionManagerState) (now : Int) (sid : String) :
    Option SessionRec × SessionManagerState :=
  match lookupSession m.sessions sid with
  | none => (none, m)
  | some s =>
      if getIdleSeconds now s > m.expiration then
        (none, { m with sessions := removeSession m.sessions sid })
      else
        (some s, m)

/-- `SessionManager._cleanup_expired` (lines 231-249): delete every
session whose idle time is strictly above the window. -/
def cleanupExpired (m : SessionManagerState) (now : Int) : SessionManagerState :=
  { m with sessions := m.sessions.filter (fun s => !(getIdleSeconds now s > m.expiration : Bool)) }

/-- `SessionManager.list_sessions` (lines 220-229): cleanup, then
summarize the surviving sessions. -/
def listSessions (m : SessionManagerState) (now : Int) :
    List SessionSummary × SessionManagerState :=
  let m1 := cleanupExpired m now
  (m1.sessions.map (sessionToDict now), m1)

/-! ## workflow_manager.py : the workflow state machine

`src/servers_local/workflow_manager.py`.  Plan dicts are embedded as
records of the fields `set_plan` reads (`components`, `circuit` with
`library` / `name` / `design_uri`); an absent key is the field's
default.  `_save_state`'s disk write is modelled by refreshing the
`last_updated` stamp from an explicit `now` parameter; its file I/O and
the logger calls have no further state effect. -/

/-- `workflow_manager.py::WorkflowState` (lines 35-52). -/
inductive WorkflowState where
  | IDLE
  | PLANNING
  | SCHEMATIC_CREATED
  | WAITING_USER
  | COMPONENT_ADDING
  | COMPLETED
deriving DecidableEq, Repr

/-- `workflow_manager.py::TOOLS_BY_STATE` (lines 59-108). -/
def TOOLS_BY_STATE : WorkflowState → List String
  | .IDLE =>
      ["check_connection", "get_project_structure", "list_cells", "check_cell_exists",
       "get_current_design", "get_workflow_status", "plan_circuit", "open_existing_design"]
  | .PLANNING =>
      ["check_connection", "get_workflow_status", "plan_circuit", "reset_workflow"]
  | .SCHEMATIC_CREATED =>
      ["check_connection", "get_workflow_status", "get_current_design",
       "execute_circuit_plan", "reset_workflow"]
  | .WAITING_USER =>
      ["check_connection", "get_workflow_status", "get_current_design",
       "confirm_design_open", "reset_workflow"]
  | .COMPONENT_ADDING =>
      ["check_connection", "get_workflow_status", "get_current_design", "add_component",
       "add_wire", "add_components_from_plan", "save_current_design", "finish_design",
       "reset_workflow"]
  | .COMPLETED =>
      ["check_connection", "get_workflow_status", "get_project_structure",
       "plan_circuit", "reset_workflow"]

/-- `workflow_manager.py::GLOBAL_TOOLS` (lines 111-115). -/
def GLOBAL_TOOLS : List String :=
  ["reset_workflow", "get_workflow_status", "check_connection"]

/-- The `circuit` sub-dict read by `set_plan` (lines 336-339). -/
structure CircuitInfo where
  library : Option String := none
  name : Option String := none
  designUri : Option String := none
deriving DecidableEq, Repr

/-- The plan dict read by `set_plan` (lines 330-341). -/
structure PlanData where
  components : List String := []
  circuit : CircuitInfo := {}
deriving DecidableEq, Repr

/-- `workflow_manager.py::WorkflowContext` (lines 179-194). -/
structure WorkflowContext where
  state : WorkflowState := .IDLE
  planId : Option String := none
  planData : Option PlanData := none
  designUri : Option String := none
  libraryName : Option String := none
  cellName : Option String := none
  componentsAdded : Nat := 0
  totalComponents : Nat := 0
  lastUpdated : Int := 0
  errorMessage : Option String := none
deriving DecidableEq, Repr

/-- The dataclass defaults: `WorkflowContext()`. -/
def initialContext : WorkflowContext := {}

/-- The `**kwargs` context patch of `transition_to` (lines 295-297):
each settable data field is optionally overwritten (`setattr`).  The
callers in the repository patch only these data fields. -/
structure ContextPatch where
  planId : Option (Option String) := none
  planData : Option (Option PlanData) := none
  designUri : Option (Option String) := none
  libraryName : Option (Option String) := none
  cellName : Option (Option String) := none
  componentsAdded : Option Nat := none
  totalComponents : Option Nat := none
  errorMessage : Option (Option String) := none
deriving DecidableEq, Repr

/-- The `setattr` loop of `transition_to` (lines 295-297). -/
def applyPatch (p : ContextPatch) (c : WorkflowContext) : WorkflowContext :=
  { c with
    planId := p.planId.getD c.planId
    planData := p.planData.getD c.planData
    designUri := p.designUri.getD c.designUri
    libraryName := p.libraryName.getD c.libraryName
    cellName := p.cellName.getD c.cellName
    componentsAdded := p.componentsAdded.getD c.componentsAdded
    totalComponents := p.totalComponents.getD c.totalComponents
    errorMessage := p.errorMessage.getD c.errorMessage }

/-- `WorkflowManager.transition_to` (lines 272-301): the transition
validation (lines 286-289) only logs a warning and never blocks, so
the state is set unconditionally, the patch applied, and the context
saved (which stamps `last_updated`).  The function always returns
`True`, so only the context is modelled. -/
def transitionTo (c : WorkflowContext) (newState : WorkflowState) (patch : ContextPatch)
    (now : Int) : WorkflowContext :=
  let c1 := applyPatch patch { c with state := newState }
  { c1 with lastUpdated := now }

/-- `WorkflowManager.reset` (lines 315-326): `self.context =
WorkflowContext()` then `_save_state` (which stamps `last_updated`).
The returned status dict is not modelled. -/
def resetContext (c : WorkflowContext) (now : Int) : WorkflowContext :=
  let _ := c
  { initialContext with lastUpdated := now }

/-- `WorkflowManager.set_plan` (lines 330-341): store the plan fields,
then `transition_to(SCHEMATIC_CREATED)`. -/
def setPlan (c : WorkflowContext) (planId : String) (planData : PlanData) (now : Int) :
    WorkflowContext :=
  let c1 :=
    { c with
      planId := some planId
      planData := some planData
      totalComponents := planData.components.length
      libraryName := planData.circuit.library
      cellName := planData.circuit.name
      designUri := planData.circuit.designUri }
  transitionTo c1 .SCHEMATIC_CREATED {} now

/-- `WorkflowManager.get_allowed_tools` (lines 359-370): the state's
tool set, with `GLOBAL_TOOLS` unioned in except in `IDLE`. -/
def getAllowedTools (c : WorkflowContext) : List String :=
  let stateTools := TOOLS_BY_STATE c.state
  if c.state ≠ .IDLE then stateTools ∪ GLOBAL_TOOLS else stateTools

/-- `k` successive identical calls `(toolName, args)` recorded through
`ControlLayer.record_tool_call`, starting from loop state `st`. -/
def loopTraceFrom (st : LoopState) (toolName : String) (args : ToolArgs) : Nat → LoopState
  | 0 => st
  | k + 1 => recordToolCallCL (loopTraceFrom st toolName args k) toolName args

/-- The invariant claimed by the spec for the workflow context:
a non-null `planId` implies the state is not `IDLE`. -/
def planInvariant (c : WorkflowContext) : Prop :=
  c.planId ≠ none → c.state ≠ .IDLE

/-- An example plan dict. -/
def examplePlan : PlanData :=
  { components := ["R1", "C1"]
    circuit := { library := some "MyLib", name := some "lpf", designUri := some "MyLib:lpf:schematic" } }

/-- The context reached from the initial context by `set_plan` followed
by `transition_to(IDLE)` (a transition `PLANNING/SCHEMATIC_CREATED ->
IDLE` that the validation table itself allows). -/
def contextAfterPlanThenIdle : WorkflowContext :=
  transitionTo (setPlan initialContext "plan_1" examplePlan 1) .IDLE {} 2

/-! ## Helper lemmas -/

theorem recordCL_last (st : LoopState) (name : String) (args : ToolArgs) :
    (recordToolCallCL st name args).lastToolCallSignature = mkSignature name args := rfl

theorem recordCL_len (st : LoopState) (name : String) (args : ToolArgs) :
    (recordToolCallCL st name args).toolsCalledInSession.length
      = st.toolsCalledInSession.length + 1 := by
  simp [recordToolCallCL, LoopState.recordToolCall]

theorem recordCL_consecutive_same (st : LoopState) (name : String) (args : ToolArgs)
    (h : st.lastToolCallSignature = mkSignature name args) :
    (recordToolCallCL st name args).consecutiveSameToolCalls
      = st.consecutiveSameToolCalls + 1 := by
  simp [recordToolCallCL, LoopState.recordToolCall, h]

theorem recordCL_consecutive_diff (st : LoopState) (name : String) (args : ToolArgs)
    (h : mkSignature name args ≠ st.lastToolCallSignature) :
    (recordToolCallCL st name args).consecutiveSameToolCalls = 0 := by
  simp [recordToolCallCL, LoopState.recordToolCall, h]

theorem recordCL_consecutive_le (st : LoopState) (name : String) (args : ToolArgs) :
    (recordToolCallCL st name args).consecutiveSameToolCalls
      ≤ st.consecutiveSameToolCalls + 1 := by
  simp only [recordToolCallCL, LoopState.recordToolCall]
  split <;> omega

theorem shouldTerminate_termAction (st : LoopState) (name : String) (result : ToolResult)
    (h1 : name ∈ TERMINATION_ACTIONS) (h2 : isSuccessfulResult result = true) :
    shouldTerminateAfterTool st name result
      = (true, some .terminationActionCalled, terminationActionMsg name) := by
  unfold shouldTerminateAfterTool
  rw [if_pos ⟨h1, h2⟩]

theorem shouldTerminate_confirm (st : LoopState) (name : String) (result : ToolResult)
    (h1 : ¬(name ∈ TERMINATION_ACTIONS ∧ isSuccessfulResult result = true))
    (h2 : name ∈ CONFIRMATION_REQUIRED_ACTIONS) :
    shouldTerminateAfterTool st name result
      = (true, some .userConfirmationRequired, confirmationMsg name) := by
  unfold shouldTerminateAfterTool
  rw [if_neg h1, if_pos h2]

theorem shouldTerminate_loopFlag (st : LoopState) (name : String) (result : ToolResult)
    (h1 : ¬(name ∈ TERMINATION_ACTIONS ∧ isSuccessfulResult result = true))
    (h2 : name ∉ CONFIRMATION_REQUIRED_ACTIONS)
    (h3 : st.consecutiveSameToolCalls ≥ MAX_SAME_TOOL_CALLS) :
    shouldTerminateAfterTool st name result
      = (true, some .infiniteLoopDetected, infiniteLoopMsg name st.consecutiveSameToolCalls) := by
  unfold shouldTerminateAfterTool
  rw [if_neg h1, if_neg h2, if_pos h3]

theorem shouldTerminate_none (st : LoopState) (name : String) (result : ToolResult)
    (h1 : ¬(name ∈ TERMINATION_ACTIONS ∧ isSuccessfulResult result = true))
    (h2 : name ∉ CONFIRMATION_REQUIRED_ACTIONS)
    (h3 : st.consecutiveSameToolCalls < MAX_SAME_TOOL_CALLS)
    (h4 : st.toolsCalledInSession.length < MAX_TOOL_CALLS_TOTAL) :
    shouldTerminateAfterTool st name result = (false, none, "") := by
  unfold shouldTerminateAfterTool
  rw [if_neg h1, if_neg h2, if_neg (by omega), if_neg (by omega)]

theorem mem_TA_not_CRA :
    ∀ name ∈ TERMINATION_ACTIONS, name ∉ CONFIRMATION_REQUIRED_ACTIONS := by
  decide

/-! ## C4 -/

/-- C4 counterexample: from the initial context, `set_plan` followed by
`transition_to(IDLE)` (a transition the validation table itself lists
as legal from `SCHEMATIC_CREATED`) reaches a context whose state is
`IDLE` while `planId` is still set: `transition_to` never clears the
plan fields, so the claimed invariant is violated after an operation
reachable from the initial context. -/
theorem workflow_plan_invariant_counterexample :
    contextAfterPlanThenIdle.state = .IDLE
    ∧ contextAfterPlanThenIdle.planId = some "plan_1"
    ∧ ¬ planInvariant contextAfterPlanThenIdle := by
  refine ⟨rfl, rfl, fun hinv => ?_⟩
  exact hinv (by decide) rfl

/-- C4 (amended): `planId` non-null implies the state is not `Idle`
after `reset` and after `set_plan`, and after `transition_to` whenever
the target state is not `Idle`; `transition_to` with target `Idle`
carries whatever `planId` the context (or its patch) holds into the
`Idle` state, so it is the one operation that can break the
invariant. -/
theorem workflow_plan_invariant_amended :
    (∀ (c : WorkflowContext) (s : WorkflowState) (p : ContextPatch) (now : Int),
        s ≠ .IDLE → planInvariant (transitionTo c s p now))
    ∧ (∀ (c : WorkflowContext) (now : Int), planInvariant (resetContext c now))
    ∧ (∀ (c : WorkflowContext) (pid : String) (pd : PlanData) (now : Int),
        planInvariant (setPlan c pid pd now)) := by
  refine ⟨fun c s p now hs _ => hs, fun c now h => absurd rfl h, fun c pid pd now _ h => ?_⟩
  exact WorkflowState.noConfusion h

/-- Witness for the amended C4 theorem at a concrete transition. -/
theorem workflow_plan_invariant_amended_witness :
    planInvariant (transitionTo initialContext .PLANNING
      { planId := some (some "p") } 5) :=
  workflow_plan_invariant_amended.1 initialContext .PLANNING
    { planId := some (some "p") } 5 (by decide)

/-! ## C5 -/

/-- C5: `reset()` yields state `IDLE` with `plan_id`, `plan_data`,
`design_uri` (and the library/cell references) cleared, the progress
counters back at their defaults, and the error field cleared — a fresh
context carrying no field over from any origin context, with a fresh
`last_updated` stamp. -/
theorem reset_postcondition :
    ∀ (c : WorkflowContext) (now : Int),
      (resetContext c now).state = .IDLE
      ∧ (resetContext c now).planId = none
      ∧ (resetContext c now).planData = none
      ∧ (resetContext c now).designUri = none
      ∧ (resetContext c now).libraryName = none
      ∧ (resetContext c now).cellName = none
      ∧ (resetContext c now).componentsAdded = 0
      ∧ (resetContext c now).totalComponents = 0
      ∧ (resetContext c now).errorMessage = none
      ∧ (resetContext c now).lastUpdated = now :=
  fun _ _ => ⟨rfl, rfl, rfl, rfl, rfl, rfl, rfl, rfl, rfl, rfl⟩

/-! ## C6 -/

/-- C6: `get_allowed_tools` is a function of the current state only;
in every state other than `IDLE` the result includes the whole fixed
global set (`reset_workflow`, `get_workflow_status`,
`check_connection`); in `IDLE` the reset tool is excluded while the
status and connection tools remain allowed. -/
theorem tool_visibility :
    (∀ c c' : WorkflowContext, c.state = c'.state → getAllowedTools c = getAllowedTools c')
    ∧ (∀ (c : WorkflowContext) (t : String),
        c.state ≠ .IDLE → t ∈ GLOBAL_TOOLS → t ∈ getAllowedTools c)
    ∧ (∀ c : WorkflowContext, c.state = .IDLE →
        "reset_workflow" ∉ getAllowedTools c
        ∧ "get_workflow_status" ∈ getAllowedTools c
        ∧ "check_connection" ∈ getAllowedTools c) := by
  refine ⟨fun c c' h => ?_, fun c t hne ht => ?_, fun c h => ?_⟩
  · unfold getAllowedTools
    rw [h]
  · unfold getAllowedTools
    rw [if_pos hne]
    exact List.mem_union_iff.mpr (Or.inr ht)
  · simp only [getAllowedTools, h]
    refine ⟨?_, ?_, ?_⟩ <;> decide

/-- Witness for C6 at concrete contexts: the initial (`IDLE`) context
excludes the reset tool but keeps status and connection tools, and a
`PLANNING` context includes the global reset tool. -/
theorem tool_visibility_witness :
    ("reset_workflow" ∉ getAllowedTools initialContext
      ∧ "get_workflow_status" ∈ getAllowedTools initialContext
      ∧ "check_connection" ∈ getAllowedTools initialContext)
    ∧ "reset_workflow" ∈ getAllowedTools (transitionTo initialContext .PLANNING {} 0) :=
  ⟨tool_visibility.2.2 initialContext rfl,
   tool_visibility.2.1 (transitionTo initialContext .PLANNING {} 0) "reset_workflow"
     (by decide) (by decide)⟩

/-! ## C3 -/

/-- C3: for every tool in the terminates-on-success set, when the loop
state is below the loop-detection and total-call thresholds, the
post-execution check does not terminate on a result classified as
unsuccessful, and does terminate — returning the terminate flag with
reason `TerminationActionCalled` exactly once, whereupon the agent
loop breaks — on a result classified as successful. -/
theorem termination_action_idempotence :
    ∀ name ∈ TERMINATION_ACTIONS,
    ∀ (st : LoopState) (result : ToolResult),
      st.consecutiveSameToolCalls < MAX_SAME_TOOL_CALLS →
      st.toolsCalledInSession.length < MAX_TOOL_CALLS_TOTAL →
      (isSuccessfulResult result = false →
          shouldTerminateAfterTool st name result = (false, none, ""))
      ∧ (isSuccessfulResult result = true →
          shouldTerminateAfterTool st name result
            = (true, some .terminationActionCalled, terminationActionMsg name)) := by
  intro name hmem st result hc hl
  have hcra : name ∉ CONFIRMATION_REQUIRED_ACTIONS := mem_TA_not_CRA name hmem
  refine ⟨fun hfail => ?_, fun hsucc => ?_⟩
  · exact shouldTerminate_none st name result
      (fun h => by rw [hfail] at h; exact Bool.false_ne_true h.2) hcra hc hl
  · exact shouldTerminate_termAction st name result hmem hsucc

/-- Witness for C3: `save_current_design` with a failure-status dict
does not terminate; with a success-status dict it terminates with
`TerminationActionCalled`. -/
theorem termination_action_idempotence_witness :
    shouldTerminateAfterTool {} "save_current_design" (.dictRes [("status", "error")])
        = (false, none, "")
    ∧ shouldTerminateAfterTool {} "save_current_design" (.dictRes [("status", "success")])
        = (true, some .terminationActionCalled, terminationActionMsg "save_current_design") :=
  ⟨(termination_action_idempotence "save_current_design" (by decide) {}
      (.dictRes [("status", "error")]) (by decide) (by decide)).1 (by decide),
   (termination_action_idempotence "save_current_design" (by decide) {}
      (.dictRes [("status", "success")]) (by decide) (by decide)).2 (by decide)⟩

/-! ## C9 -/

/-- C9: for every tool in the confirmation-required set (which contains
exactly `plan_circuit`, a tool that is not a termination action), the
post-execution check returns terminate with reason
`UserConfirmationRequired` for every loop state and every tool result —
in particular for results whose status indicates failure; the result is
never inspected by this check (the outcome is constant in it). -/
theorem confirmation_required_terminates :
    ∀ (st : LoopState) (name : String) (result : ToolResult),
      name ∈ CONFIRMATION_REQUIRED_ACTIONS →
      shouldTerminateAfterTool st name result
        = (true, some .userConfirmationRequired, confirmationMsg name) := by
  intro st name result hmem
  have hname : name = "plan_circuit" := by
    simpa [CONFIRMATION_REQUIRED_ACTIONS] using hmem
  subst hname
  exact shouldTerminate_confirm st _ result
    (fun h => absurd h.1 (by decide)) hmem

/-- Witness for C9: `plan_circuit` with an explicit failure-status
result still terminates with `UserConfirmationRequired`. -/
theorem confirmation_required_terminates_witness :
    shouldTerminateAfterTool {} "plan_circuit" (.dictRes [("status", "error")])
      = (true, some .userConfirmationRequired, confirmationMsg "plan_circuit") :=
  confirmation_required_terminates {} "plan_circuit" (.dictRes [("status", "error")])
    (by decide)

/-! ## C10 -/

/-- C10: for a tool result that is a string not parseable as a JSON
object, the success classifier returns true exactly when the lowercased
string contains the substring "success" or the string contains "✓" or
"✅"; consequently a terminates-on-success tool whose plain-text result
merely contains "success" anywhere — even inside a failure
description — terminates the loop with `TerminationActionCalled`. -/
theorem plain_string_success_classifier :
    (∀ raw : String,
        isSuccessfulResult (.strRes raw none)
          = (strContainsSub (strLower raw) "success"
              || strContainsSub raw "✓" || strContainsSub raw "✅"))
    ∧ (∀ (st : LoopState) (name raw : String),
        name ∈ TERMINATION_ACTIONS →
        strContainsSub (strLower raw) "success" = true →
        shouldTerminateAfterTool st name (.strRes raw none)
          = (true, some .terminationActionCalled, terminationActionMsg name)) := by
  refine ⟨fun raw => rfl, fun st name raw hmem hsub => ?_⟩
  exact shouldTerminate_termAction st name _ hmem (by simp [isSuccessfulResult, hsub])

/-- Witness for C10: a plain-text failure description that merely
contains the word "Success" makes `execute_circuit_plan` terminate
with `TerminationActionCalled`. -/
theorem plain_string_success_classifier_witness :
    shouldTerminateAfterTool {} "execute_circuit_plan"
        (.strRes "Execution failed: Successful completion was not achieved" none)
      = (true, some .terminationActionCalled, terminationActionMsg "execute_circuit_plan") :=
  plain_string_success_classifier.2 {} "execute_circuit_plan"
    "Execution failed: Successful completion was not achieved" (by decide) (by decide)

/-! ## C1 -/

theorem checkAndIncrement_allows (c : ToolCallCounter) (name : String)
    (h1 : dictGetNat c.perToolCount name < c.maxPerToolCalls)
    (h2 : c.totalCount < c.maxTotalCalls) :
    checkAndIncrementCallCount c name
      = (true, "",
         { c with
           totalCount := c.totalCount + 1
           perToolCount := dictSetNat c.perToolCount name (dictGetNat c.perToolCount name + 1) }) := by
  unfold checkAndIncrementCallCount
  rw [if_neg (by omega), if_neg (by omega)]

theorem checkAndIncrement_denies (c : ToolCallCounter) (name : String)
    (h : dictGetNat c.perToolCount name ≥ c.maxPerToolCalls) :
    checkAndIncrementCallCount c name
      = (false, perToolLimitMsg name (dictGetNat c.perToolCount name), c) := by
  unfold checkAndIncrementCallCount
  rw [if_pos h]

theorem quotaTrace_spec (name : String) :
    ∀ k, 1 ≤ k → k ≤ 5 →
      quotaTrace name k = { totalCount := k, perToolCount := [(name, k)] } := by
  intro k
  induction k with
  | zero => intro h1 _; exact absurd h1 (by omega)
  | succ n ih =>
      intro _ h2
      rcases Nat.eq_zero_or_pos n with rfl | hpos
      · rfl
      · have hi := ih (by omega) (by omega)
        have hc := checkAndIncrement_allows
          { totalCount := n, perToolCount := [(name, n)] } name
          (by simp [dictGetNat]; omega) (by simp; omega)
        rw [quotaTrace, hi, hc]
        simp [dictSetNat, dictGetNat]

/-- C1: per-tool quota enforcement.  First part: whenever a tool's
recorded count has reached the per-tool maximum, the quota gate denies
the next call to it with the message naming the saturated tool, leaves
both counters unchanged, and the proxy returns the blocked payload
without executing the tool.  Second part: with the default limits
(5 per tool, 15 total), the first five calls of a tool from a fresh
counter are all allowed and executed, and the sixth is denied with the
counter unchanged and the tool not executed. -/
theorem per_tool_quota_enforcement :
    (∀ (c : ToolCallCounter) (name invokeResult : String),
        dictGetNat c.perToolCount name ≥ c.maxPerToolCalls →
        checkAndIncrementCallCount c name
            = (false, perToolLimitMsg name (dictGetNat c.perToolCount name), c)
          ∧ proxyToolCall c name invokeResult
            = (blockedResultJson name (perToolLimitMsg name (dictGetNat c.perToolCount name)),
               c, false))
    ∧ (∀ (name invokeResult : String),
        (∀ k, k < 5 → (proxyToolCall (quotaTrace name k) name invokeResult).2.2 = true)
        ∧ proxyToolCall (quotaTrace name 5) name invokeResult
            = (blockedResultJson name (perToolLimitMsg name 5), quotaTrace name 5, false)) := by
  refine ⟨fun c name invokeResult h => ⟨checkAndIncrement_denies c name h, ?_⟩,
          fun name invokeResult => ⟨fun k hk => ?_, ?_⟩⟩
  · unfold proxyToolCall
    rw [checkAndIncrement_denies c name h]
    rfl
  · have h1 : dictGetNat (quotaTrace name k).perToolCount name
        < (quotaTrace name k).maxPerToolCalls := by
      rcases Nat.eq_zero_or_pos k with rfl | hpos
      · simp only [quotaTrace, dictGetNat]
        omega
      · rw [quotaTrace_spec name k (by omega) (by omega)]
        simp [dictGetNat]
        omega
    have h2 : (quotaTrace name k).totalCount < (quotaTrace name k).maxTotalCalls := by
      rcases Nat.eq_zero_or_pos k with rfl | hpos
      · simp only [quotaTrace]
        omega
      · rw [quotaTrace_spec name k (by omega) (by omega)]
        simp
        omega
    unfold proxyToolCall
    rw [checkAndIncrement_allows _ name h1 h2]
    rfl
  · have hs := quotaTrace_spec name 5 (by omega) (by omega)
    have h5 : dictGetNat (quotaTrace name 5).perToolCount name
        ≥ (quotaTrace name 5).maxPerToolCalls := by
      rw [hs]; simp [dictGetNat]
    have hd := checkAndIncrement_denies _ name h5
    have hmsg : dictGetNat (quotaTrace name 5).perToolCount name = 5 := by
      rw [hs]; simp [dictGetNat]
    rw [hmsg] at hd
    unfold proxyToolCall
    rw [hd]
    rfl

/-- Witness for C1: from a fresh counter, the third call of a tool is
still executed, and a counter that records five prior calls of `foo`
makes the sixth call of `foo` come back blocked, unexecuted, with the
counter unchanged. -/
theorem per_tool_quota_enforcement_witness :
    (proxyToolCall (quotaTrace "foo" 2) "foo" "ok").2.2 = true
    ∧ proxyToolCall (quotaTrace "foo" 5) "foo" "ok"
        = (blockedResultJson "foo" (perToolLimitMsg "foo" 5), quotaTrace "foo" 5, false)
    ∧ proxyToolCall { totalCount := 5, perToolCount := [("foo", 5)] } "foo" "ok"
        = (blockedResultJson "foo" (perToolLimitMsg "foo" 5),
           { totalCount := 5, perToolCount := [("foo", 5)] }, false) := by
  refine ⟨(per_tool_quota_enforcement.2 "foo" "ok").1 2 (by omega),
          (per_tool_quota_enforcement.2 "foo" "ok").2, ?_⟩
  have h := (per_tool_quota_enforcement.1
    { totalCount := 5, perToolCount := [("foo", 5)] } "foo" "ok" (by decide)).2
  simpa [dictGetNat] using h

/-! ## C2 -/

/-- C2: loop detection with `MAX_SAME_TOOL_CALLS = 3`.  First part:
recording a call whose signature differs from `lastSignature` resets
the consecutive-repeat counter to 0.  Second part: starting from any
loop state whose last signature differs from the call's (and with
room under the total-call ceiling, for a tool in neither action set),
three identical calls leave the check silent, and the fourth identical
call — the one on which the consecutive-repeat counter reaches 3 —
flags `InfiniteLoopDetected`. -/
theorem loop_detection :
    (∀ (st : LoopState) (name : String) (args : ToolArgs),
        mkSignature name args ≠ st.lastToolCallSignature →
        (recordToolCallCL st name args).consecutiveSameToolCalls = 0)
    ∧ (∀ (st : LoopState) (name : String) (args : ToolArgs) (result : ToolResult),
        name ∉ TERMINATION_ACTIONS →
        name ∉ CONFIRMATION_REQUIRED_ACTIONS →
        mkSignature name args ≠ st.lastToolCallSignature →
        st.toolsCalledInSession.length + 4 ≤ MAX_TOOL_CALLS_TOTAL →
        (∀ k, 1 ≤ k → k ≤ 3 →
            (shouldTerminateAfterTool (loopTraceFrom st name args k) name result).1 = false)
        ∧ (loopTraceFrom st name args 4).consecutiveSameToolCalls = 3
        ∧ shouldTerminateAfterTool (loopTraceFrom st name args 4) name result
            = (true, some .infiniteLoopDetected, infiniteLoopMsg name 3)) := by
  constructor
  · exact fun st name args h => recordCL_consecutive_diff st name args h
  · intro st name args result hTA hCRA hsig hlen
    unfold MAX_TOOL_CALLS_TOTAL at hlen
    have h1 : ¬(name ∈ TERMINATION_ACTIONS ∧ isSuccessfulResult result = true) :=
      fun hh => hTA hh.1
    have hl1 : (loopTraceFrom st name args 1).lastToolCallSignature = mkSignature name args :=
      recordCL_last st name args
    have hl2 : (loopTraceFrom st name args 2).lastToolCallSignature = mkSignature name args :=
      recordCL_last (loopTraceFrom st name args 1) name args
    have hl3 : (loopTraceFrom st name args 3).lastToolCallSignature = mkSignature name args :=
      recordCL_last (loopTraceFrom st name args 2) name args
    have hc1 : (loopTraceFrom st name args 1).consecutiveSameToolCalls = 0 :=
      recordCL_consecutive_diff st name args hsig
    have hc2 : (loopTraceFrom st name args 2).consecutiveSameToolCalls = 1 := by
      rw [show (loopTraceFrom st name args 2).consecutiveSameToolCalls
          = (loopTraceFrom st name args 1).consecutiveSameToolCalls + 1 from
          recordCL_consecutive_same (loopTraceFrom st name args 1) name args hl1, hc1]
    have hc3 : (loopTraceFrom st name args 3).consecutiveSameToolCalls = 2 := by
      rw [show (loopTraceFrom st name args 3).consecutiveSameToolCalls
          = (loopTraceFrom st name args 2).consecutiveSameToolCalls + 1 from
          recordCL_consecutive_same (loopTraceFrom st name args 2) name args hl2, hc2]
    have hc4 : (loopTraceFrom st name args 4).consecutiveSameToolCalls = 3 := by
      rw [show (loopTraceFrom st name args 4).consecutiveSameToolCalls
          = (loopTraceFrom st name args 3).consecutiveSameToolCalls + 1 from
          recordCL_consecutive_same (loopTraceFrom st name args 3) name args hl3, hc3]
    have hn1 : (loopTraceFrom st name args 1).toolsCalledInSession.length
        = st.toolsCalledInSession.length + 1 := recordCL_len st name args
    have hn2 : (loopTraceFrom st name args 2).toolsCalledInSession.length
        = st.toolsCalledInSession.length + 2 := by
      rw [show (loopTraceFrom st name args 2).toolsCalledInSession.length
          = (loopTraceFrom st name args 1).toolsCalledInSession.length + 1 from
          recordCL_len (loopTraceFrom st name args 1) name args, hn1]
    have hn3 : (loopTraceFrom st name args 3).toolsCalledInSession.length
        = st.toolsCalledInSession.length + 3 := by
      rw [show (loopTraceFrom st name args 3).toolsCalledInSession.length
          = (loopTraceFrom st name args 2).toolsCalledInSession.length + 1 from
          recordCL_len (loopTraceFrom st name args 2) name args, hn2]
    refine ⟨fun k hk1 hk3 => ?_, hc4, ?_⟩
    · interval_cases k
      · rw [shouldTerminate_none _ name result h1 hCRA
          (by rw [hc1]; decide) (by rw [hn1]; unfold MAX_TOOL_CALLS_TOTAL; omega)]
      · rw [shouldTerminate_none _ name result h1 hCRA
          (by rw [hc2]; decide) (by rw [hn2]; unfold MAX_TOOL_CALLS_TOTAL; omega)]
      · rw [shouldTerminate_none _ name result h1 hCRA
          (by rw [hc3]; decide) (by rw [hn3]; unfold MAX_TOOL_CALLS_TOTAL; omega)]
    · rw [shouldTerminate_loopFlag _ name result h1 hCRA (by rw [hc4]; decide), hc4]

/-- Witness for C2, the spec's own scenario: from a fresh guard, three
calls of `("foo", x=1)` stay silent, the fourth flags
`InfiniteLoopDetected`, and a `("foo", x=2)` call after the first three
resets the consecutive-repeat counter to 0. -/
theorem loop_detection_witness :
    (shouldTerminateAfterTool (loopTraceFrom {} "foo" [("x", "1")] 3) "foo" .otherRes).1
        = false
    ∧ shouldTerminateAfterTool (loopTraceFrom {} "foo" [("x", "1")] 4) "foo" .otherRes
        = (true, some .infiniteLoopDetected, infiniteLoopMsg "foo" 3)
    ∧ (recordToolCallCL (loopTraceFrom {} "foo" [("x", "1")] 3)
        "foo" [("x", "2")]).consecutiveSameToolCalls = 0 := by
  have h := loop_detection.2 {} "foo" [("x", "1")] .otherRes
    (by decide) (by decide) (by decide) (by decide)
  refine ⟨h.1 3 (by omega) (by omega), h.2.2, ?_⟩
  exact loop_detection.1 (loopTraceFrom {} "foo" [("x", "1")] 3) "foo" [("x", "2")] (by decide)

/-! ## C7 -/

/-- C7: tool failure containment.  When the tool invocation raises, the
per-call step of the agent loop still returns normally (the exception
is consumed by the step itself): it appends exactly the tool-result
message `"Error executing <name>: <message>"` to the history, records
the call, and its stop decision is exactly the control layer's verdict
on that error text — so the exception by itself never stops the loop:
for a tool in neither action set, with the counters under their
thresholds, the loop continues. -/
theorem tool_failure_containment :
    ∀ (st : LoopState) (messages : List ToolMsg) (toolCallId name : String)
      (args : ToolArgs) (e : String),
      (processToolCall st messages toolCallId name args (.error e)).1
          = messages ++ [⟨"tool", toolCallId, name, errorExecutingMsg name e⟩]
      ∧ (processToolCall st messages toolCallId name args (.error e)).2.1
          = recordToolCallCL st name args
      ∧ (processToolCall st messages toolCallId name args (.error e)).2.2.1
          = (shouldTerminateAfterTool (recordToolCallCL st name args) name
              (.strRes (errorExecutingMsg name e) none)).1
      ∧ (name ∉ TERMINATION_ACTIONS →
         name ∉ CONFIRMATION_REQUIRED_ACTIONS →
         st.consecutiveSameToolCalls + 1 < MAX_SAME_TOOL_CALLS →
         st.toolsCalledInSession.length + 1 < MAX_TOOL_CALLS_TOTAL →
         (processToolCall st messages toolCallId name args (.error e)).2.2.1 = false) := by
  intro st messages toolCallId name args e
  refine ⟨rfl, rfl, rfl, fun hTA hCRA hc hl => ?_⟩
  have hrec := recordCL_consecutive_le st name args
  have hlen := recordCL_len st name args
  show (shouldTerminateAfterTool (recordToolCallCL st name args) name
      (.strRes (errorExecutingMsg name e) none)).1 = false
  rw [shouldTerminate_none _ name _ (fun hh => hTA hh.1) hCRA (by omega) (by omega)]

/-- Witness for C7: a raising tool call with a generic tool on a fresh
state appends the error text and does not stop the loop. -/
theorem tool_failure_containment_witness :
    (processToolCall {} [] "call_1" "foo" [("x", "1")] (.error "boom")).1
        = [⟨"tool", "call_1", "foo", errorExecutingMsg "foo" "boom"⟩]
    ∧ (processToolCall {} [] "call_1" "foo" [("x", "1")] (.error "boom")).2.2.1 = false := by
  have h := tool_failure_containment {} [] "call_1" "foo" [("x", "1")] "boom"
  exact ⟨h.1, h.2.2.2 (by decide) (by decide) (by decide) (by decide)⟩

/-! ## C8 -/

theorem lookupSession_removeSession (l : List SessionRec) (sid : String) :
    lookupSession (removeSession l sid) sid = none := by
  unfold lookupSession removeSession
  rw [List.find?_eq_none]
  intro x hx
  have hne := (List.mem_filter.mp hx).2
  simp only [bne_iff_ne, ne_eq] at hne
  simpa using hne

/-- C8: session expiry.  A session whose idle time (`now -
lastActivity`) strictly exceeds the expiration window is absent from
`get_session` — which also removes the entry from the registry — and
any subsequent `list_sessions` output (at any observation time) does
not include that session. -/
theorem session_expiry :
    ∀ (m : SessionManagerState) (sid : String) (now : Int) (s : SessionRec),
      lookupSession m.sessions sid = some s →
      getIdleSeconds now s > m.expiration →
      (getSession m now sid).1 = none
      ∧ lookupSession (getSession m now sid).2.sessions sid = none
      ∧ ∀ now' : Int,
          sid ∉ ((listSessions (getSession m now sid).2 now').1.map SessionSummary.sessionId) := by
  intro m sid now s hl hexp
  have hget : getSession m now sid
      = (none, { m with sessions := removeSession m.sessions sid }) := by
    unfold getSession
    rw [hl]
    simp [hexp]
  refine ⟨by rw [hget], by rw [hget]; exact lookupSession_removeSession m.sessions sid, ?_⟩
  intro now' hmem
  rw [hget] at hmem
  simp only [listSessions, cleanupExpired, List.map_map, List.mem_map,
    List.mem_filter] at hmem
  obtain ⟨rec, ⟨hrecmem, _⟩, hid⟩ := hmem
  have hne := (List.mem_filter.mp hrecmem).2
  simp only [bne_iff_ne, ne_eq] at hne
  exact hne (by simpa [sessionToDict] using hid)

/-- Witness for C8: a registry holding one session last active at time
0 with the default 30-minute window, asked at time 2000, drops the
session from `get_session` and from the subsequent listing. -/
theorem session_expiry_witness :
    (getSession { sessions := [⟨"s1", 0, 0, 0⟩] } 2000 "s1").1 = none
    ∧ lookupSession (getSession { sessions := [⟨"s1", 0, 0, 0⟩] } 2000 "s1").2.sessions "s1"
        = none
    ∧ "s1" ∉ ((listSessions (getSession { sessions := [⟨"s1", 0, 0, 0⟩] } 2000 "s1").2
        2000).1.map SessionSummary.sessionId) := by
  have h := session_expiry { sessions := [⟨"s1", 0, 0, 0⟩] } "s1" 2000 ⟨"s1", 0, 0, 0⟩
    (by decide) (by decide)
  exact ⟨h.1, h.2.1, h.2.2 2000⟩

end Agent
